import Mathlib

/-
Verification of the token lifecycle and sync engine of the strava-mcp
repository, as a shallow embedding in Lean 4.

Token side: shallow embedding of src/setup/strava-mcp.py
  (get_stored_token, store_token, refresh_strava_access_token, ensure_token).
Sync side: shallow embedding of src/strava-sync.py
  (fetch_strava_activities pagination loop and write phase,
   fetch_activity_details).

Modelling conventions:
  - the auth_token table is a list of rows, in insertion order;
  - SQLite "ORDER BY created_at DESC LIMIT 1" is the row with the
    greatest created_at (first such row on ties);
  - unix timestamps are integers;
  - HTTP interaction is a pure response value (for the broker) or a pure
    page provider function (for the data API); a record of the calls made
    is threaded through so that "zero network calls" is expressible;
  - JSON scalar values are carried verbatim into columns, so their exact
    numeric type is irrelevant: Int / String / Bool carriers are used;
  - Python falsiness of an unset or empty environment variable is
    modelled as Option.none.
-/

namespace StravaMCP

/-- A row of the auth_token table (src/strava-sync.py lines 171-179). -/
structure TokenRow where
  access_token : String
  refresh_token : String
  expires_at : Int
  created_at : Int
deriving DecidableEq

/-- The TokenInfo pydantic model (src/setup/strava-mcp.py lines 118-121). -/
structure TokenInfo where
  access_token : String
  refresh_token : String
  expires_at : Int
deriving DecidableEq

/-- The auth_token table: rows in insertion order. -/
abbrev TokenDB := List TokenRow

/-- The row selected by SELECT * FROM auth_token ORDER BY created_at DESC
LIMIT 1: a row with the greatest created_at (earliest such row on ties). -/
def latestRow (db : TokenDB) : Option TokenRow :=
  db.foldl
    (fun acc r =>
      match acc with
      | none => some r
      | some b => if b.created_at < r.created_at then some r else some b)
    none

/-- get_stored_token (src/setup/strava-mcp.py lines 130-149): select the
newest row; return none when there is no row, or when the newest row has
expires_at < now + 60 (the 60-second buffer); otherwise return its
TokenInfo. -/
def get_stored_token (db : TokenDB) (now : Int) : Option TokenInfo :=
  match latestRow db with
  | none => none
  | some row =>
      if row.expires_at < now + 60 then none
      else some ⟨row.access_token, row.refresh_token, row.expires_at⟩

/-- store_token (src/setup/strava-mcp.py lines 151-159): INSERT a new row
with created_at = now. Append-only. -/
def store_token (db : TokenDB) (t : TokenInfo) (now : Int) : TokenDB :=
  db ++ [⟨t.access_token, t.refresh_token, t.expires_at, now⟩]

/-- The JSON body of the broker response to POST /refresh-token, with the
HTTP status; a missing key is none. -/
structure BrokerResponse where
  status : Nat
  access_token : Option String
  refresh_token : Option String
  expires_at : Option Int
deriving DecidableEq

/-- Errors of refresh_strava_access_token: a non-200 status, or a 200
response missing one of the required fields (the KeyError path). -/
inductive RefreshError where
  | httpFailed (status : Nat)
  | malformedResponse
deriving DecidableEq

/-- refresh_strava_access_token (src/setup/strava-mcp.py lines 161-183)
applied to the broker response it received: a non-200 status raises; a 200
body missing access_token, refresh_token or expires_at raises (KeyError,
re-raised); otherwise the three fields form the TokenInfo. -/
def refresh_strava_access_token (resp : BrokerResponse) :
    Except RefreshError TokenInfo :=
  if resp.status ≠ 200 then .error (.httpFailed resp.status)
  else
    match resp.access_token, resp.refresh_token, resp.expires_at with
    | some a, some r, some e => .ok ⟨a, r, e⟩
    | _, _, _ => .error .malformedResponse

/-- Errors of ensure_token: the ValueError when no refresh token is
available, or a propagated refresh error. -/
inductive EnsureError where
  | noRefreshToken
  | refreshError (e : RefreshError)
deriving DecidableEq

/-- The observable outcome of one ensure_token call: its return value or
error, the auth_token table afterwards, and the refresh tokens sent to the
broker, in order (network-call log). -/
structure EnsureOutcome where
  result : Except EnsureError TokenInfo
  db : TokenDB
  brokerCalls : List String

/-- ensure_token (src/setup/strava-mcp.py lines 185-200): return the
stored token when get_stored_token yields one; otherwise fail when the
statically configured REFRESH_TOKEN is unset (ValueError), else refresh
through the broker with the static REFRESH_TOKEN and store the result.
envRefresh is REFRESH_TOKEN (none when unset or empty); broker maps the
refresh token sent to the response received; now is the current time. -/
def ensure_token (envRefresh : Option String) (broker : String → BrokerResponse)
    (db : TokenDB) (now : Int) : EnsureOutcome :=
  match get_stored_token db now with
  | some t => ⟨.ok t, db, []⟩
  | none =>
      match envRefresh with
      | none => ⟨.error .noRefreshToken, db, []⟩
      | some rt =>
          match refresh_strava_access_token (broker rt) with
          | .error e => ⟨.error (.refreshError e), db, [rt]⟩
          | .ok tok => ⟨.ok tok, store_token db tok now, [rt]⟩

/-- An activity payload from the data API, with exactly the keys the sync
script reads; a missing key is none; raw stands for the full serialized
payload (json.dumps(activity_data)). -/
structure ActivityPayload where
  id : Int
  name : Option String
  type_ : Option String
  sport_type : Option String
  start_date : Option String
  distance : Option Int
  moving_time : Option Int
  elapsed_time : Option Int
  total_elevation_gain : Option Int
  average_speed : Option Int
  max_speed : Option Int
  has_heartrate : Option Bool
  average_heartrate : Option Int
  max_heartrate : Option Int
  kudos_count : Option Int
  achievement_count : Option Int
  pr_count : Option Int
  raw : String
deriving DecidableEq

/-- A row of the activities table (src/strava-sync.py lines 115-136). -/
structure ActivityRow where
  id : Int
  name : String
  type_ : String
  sport_type : Option String
  start_date : String
  distance : Int
  moving_time : Int
  elapsed_time : Int
  total_elevation_gain : Int
  average_speed : Int
  max_speed : Int
  has_heartrate : Bool
  average_heartrate : Int
  max_heartrate : Int
  kudos_count : Int
  achievement_count : Int
  pr_count : Int
  json_data : String
deriving DecidableEq

/-- The VALUES tuple of the INSERT OR REPLACE in fetch_strava_activities
(src/strava-sync.py lines 378-406): each column is activity_data.get(key)
with the default used there. -/
def rowOfPayload (a : ActivityPayload) : ActivityRow where
  id := a.id
  name := a.name.getD ""
  type_ := a.type_.getD ""
  sport_type := a.sport_type
  start_date := a.start_date.getD ""
  distance := a.distance.getD 0
  moving_time := a.moving_time.getD 0
  elapsed_time := a.elapsed_time.getD 0
  total_elevation_gain := a.total_elevation_gain.getD 0
  average_speed := a.average_speed.getD 0
  max_speed := a.max_speed.getD 0
  has_heartrate := a.has_heartrate.getD false
  average_heartrate := a.average_heartrate.getD 0
  max_heartrate := a.max_heartrate.getD 0
  kudos_count := a.kudos_count.getD 0
  achievement_count := a.achievement_count.getD 0
  pr_count := a.pr_count.getD 0
  json_data := a.raw

/-- The activities table: its rows, at most one per id. -/
abbrev ActivitiesTable := List ActivityRow

/-- INSERT OR REPLACE keyed on the id primary key: replace the existing
row with that id, else append. -/
def upsertRow (tbl : ActivitiesTable) (r : ActivityRow) : ActivitiesTable :=
  if tbl.any (fun x => x.id == r.id) then
    tbl.map (fun x => if x.id == r.id then r else x)
  else tbl ++ [r]

/-- SELECT the row with the given id. -/
def lookupActivity (tbl : ActivitiesTable) (i : Int) : Option ActivityRow :=
  tbl.find? (fun x => x.id == i)

/-- The SET clause of the UPDATE in fetch_activity_details
(src/strava-sync.py lines 527-551): it sets name, type, sport_type,
distance, moving_time, elapsed_time, total_elevation_gain, average_speed,
max_speed, has_heartrate, average_heartrate, max_heartrate and json_data,
and leaves start_date, kudos_count, achievement_count and pr_count as they
were. -/
def detailUpdate (r : ActivityRow) (a : ActivityPayload) : ActivityRow :=
  { r with
    name := a.name.getD ""
    type_ := a.type_.getD ""
    sport_type := a.sport_type
    distance := a.distance.getD 0
    moving_time := a.moving_time.getD 0
    elapsed_time := a.elapsed_time.getD 0
    total_elevation_gain := a.total_elevation_gain.getD 0
    average_speed := a.average_speed.getD 0
    max_speed := a.max_speed.getD 0
    has_heartrate := a.has_heartrate.getD false
    average_heartrate := a.average_heartrate.getD 0
    max_heartrate := a.max_heartrate.getD 0
    json_data := a.raw }

/-- The write of fetch_activity_details (src/strava-sync.py lines
521-554): UPDATE activities SET ... WHERE id = i. Rows with other ids are
untouched; when no row has id i, nothing is written. -/
def fetch_activity_details_write (tbl : ActivitiesTable) (i : Int)
    (a : ActivityPayload) : ActivitiesTable :=
  tbl.map (fun x => if x.id == i then detailUpdate x a else x)

/-- The exception raised by strava_api_request (src/strava-sync.py lines
310-337): any non-2xx status or network error. -/
inductive ApiError where
  | requestFailed (detail : String)
deriving DecidableEq

/-- The test "if page_limit and page > page_limit" of the pagination loop
(src/strava-sync.py line 370): Python falsiness makes a page_limit of None
or 0 mean no limit. -/
def pageLimitHit (pl : Option Nat) (page : Nat) : Bool :=
  match pl with
  | none => false
  | some l => decide (l ≠ 0) && decide (l < page)

/-- The pagination loop of fetch_strava_activities (src/strava-sync.py
lines 349-372), as a fuelled recursion (the Python loop is while True).
provider maps a page number to the response for
GET athlete/activities?page=p&per_page=100. Returns none when fuel runs
out before the loop exits, otherwise the loop outcome (accumulated
records, or the propagated request error) together with the list of pages
requested, in order. A request error propagates at once; an empty page
ends the loop; after appending a page the loop ends when the incremented
page number exceeds the page limit. -/
def fetchActivitiesAux (provider : Nat → Except ApiError (List ActivityPayload))
    (pl : Option Nat) :
    Nat → Nat → List ActivityPayload → List Nat →
    Option (Except ApiError (List ActivityPayload) × List Nat)
  | 0, _, _, _ => none
  | fuel + 1, page, acc, reqs =>
      match provider page with
      | .error e => some (.error e, reqs ++ [page])
      | .ok batch =>
          if batch.isEmpty then some (.ok acc, reqs ++ [page])
          else if pageLimitHit pl (page + 1) then
            some (.ok (acc ++ batch), reqs ++ [page])
          else fetchActivitiesAux provider pl fuel (page + 1) (acc ++ batch)
            (reqs ++ [page])

/-- One iteration of the write loop of fetch_strava_activities
(src/strava-sync.py lines 376-408): the INSERT OR REPLACE for one record;
when the write raises (fails a = true) the error is logged and the record
skipped, leaving the table as it was. -/
def writeActivity (fails : ActivityPayload → Bool) (tbl : ActivitiesTable)
    (a : ActivityPayload) : ActivitiesTable :=
  if fails a then tbl else upsertRow tbl (rowOfPayload a)

/-- The whole write loop: each record written in order, failing records
skipped. -/
def saveActivities (fails : ActivityPayload → Bool) (tbl : ActivitiesTable)
    (records : List ActivityPayload) : ActivitiesTable :=
  records.foldl (writeActivity fails) tbl

/-- The number of records whose write succeeded in the write loop. -/
def writtenCount (fails : ActivityPayload → Bool)
    (records : List ActivityPayload) : Nat :=
  (records.filter (fun a => !(fails a))).length

/-- Outcome of the write phase of fetch_strava_activities (src/strava-sync.py
lines 374-412): the table afterwards, the value returned
(len(all_activities)), and the number of conn.commit() calls. -/
structure BatchOutcome where
  table : ActivitiesTable
  returnedCount : Nat
  commits : Nat

/-- The write phase of fetch_strava_activities as the Upsert Writer
contract names it: write every record (failures logged and skipped),
commit once, return len(all_activities). -/
def upsert_activities (fails : ActivityPayload → Bool) (tbl : ActivitiesTable)
    (records : List ActivityPayload) : BatchOutcome :=
  ⟨saveActivities fails tbl records, records.length, 1⟩

/-- The observable outcome of one fetch_strava_activities call: the value
returned or the propagated error, the activities table afterwards, the
pages requested, and the number of conn.commit() calls. -/
structure SyncOutcome where
  result : Except ApiError Nat
  table : ActivitiesTable
  requests : List Nat
  commits : Nat

/-- fetch_strava_activities (src/strava-sync.py lines 340-412): run the
pagination loop from page 1; when it fails, the exception propagates
before any write, leaving the table untouched; when it completes, run the
write phase and return len(all_activities). none when fuel runs out. -/
def fetch_strava_activities (provider : Nat → Except ApiError (List ActivityPayload))
    (fails : ActivityPayload → Bool) (pl : Option Nat) (tbl : ActivitiesTable)
    (fuel : Nat) : Option SyncOutcome :=
  match fetchActivitiesAux provider pl fuel 1 [] [] with
  | none => none
  | some (.error e, reqs) => some ⟨.error e, tbl, reqs, 0⟩
  | some (.ok acc, reqs) =>
      some ⟨.ok acc.length, saveActivities fails tbl acc, reqs, 1⟩

/- ===== helper lemmas ===== -/

/-- The accumulator step of latestRow. -/
def latestStep (acc : Option TokenRow) (r : TokenRow) : Option TokenRow :=
  match acc with
  | none => some r
  | some b => if b.created_at < r.created_at then some r else some b

theorem latestRow_eq_foldl (db : TokenDB) :
    latestRow db = db.foldl latestStep none := by
  rfl

theorem latestStep_foldl_mem :
    ∀ (l : List TokenRow) (acc : Option TokenRow) (b : TokenRow),
      l.foldl latestStep acc = some b → b ∈ l ∨ acc = some b := by
  intro l
  induction l with
  | nil => intro acc b h; exact Or.inr h
  | cons x xs ih =>
      intro acc b h
      rcases ih (latestStep acc x) b h with hmem | hacc
      · exact Or.inl (List.mem_cons_of_mem x hmem)
      · cases acc with
        | none =>
            simp only [latestStep] at hacc
            have hxb : x = b := by injection hacc
            exact Or.inl (hxb ▸ List.mem_cons_self x xs)
        | some c =>
            simp only [latestStep] at hacc
            by_cases hlt : c.created_at < x.created_at
            · rw [if_pos hlt] at hacc
              have hxb : x = b := by injection hacc
              exact Or.inl (hxb ▸ List.mem_cons_self x xs)
            · rw [if_neg hlt] at hacc
              exact Or.inr hacc

theorem latestRow_mem (db : TokenDB) (b : TokenRow)
    (h : latestRow db = some b) : b ∈ db := by
  rw [latestRow_eq_foldl] at h
  rcases latestStep_foldl_mem db none b h with hmem | hacc
  · exact hmem
  · exact absurd hacc (by simp)

theorem latestStep_foldl_isSome :
    ∀ (l : List TokenRow) (c : TokenRow),
      (l.foldl latestStep (some c)).isSome = true := by
  intro l
  induction l with
  | nil => intro c; rfl
  | cons x xs ih =>
      intro c
      simp only [List.foldl_cons, latestStep]
      by_cases hlt : c.created_at < x.created_at
      · rw [if_pos hlt]; exact ih x
      · rw [if_neg hlt]; exact ih c

theorem latestRow_eq_none_iff (db : TokenDB) :
    latestRow db = none ↔ db = [] := by
  constructor
  · intro h
    cases db with
    | nil => rfl
    | cons x xs =>
        rw [latestRow_eq_foldl] at h
        have hs := latestStep_foldl_isSome xs x
        simp only [List.foldl_cons, latestStep] at h
        rw [h] at hs
        simp at hs
  · intro h; subst h; rfl

theorem latestStep_foldl_max :
    ∀ (l : List TokenRow) (acc : Option TokenRow) (b : TokenRow),
      l.foldl latestStep acc = some b →
      (∀ x ∈ l, x.created_at ≤ b.created_at) ∧
      (∀ c, acc = some c → c.created_at ≤ b.created_at) := by
  intro l
  induction l with
  | nil =>
      intro acc b h
      refine ⟨?_, ?_⟩
      · intro x hx
        exact absurd hx (List.not_mem_nil x)
      · intro c hc
        have h' : acc = some b := h
        rw [hc] at h'
        have hcb : c = b := by injection h'
        rw [hcb]
  | cons x xs ih =>
      intro acc b h
      rw [List.foldl_cons] at h
      obtain ⟨hxs, hstep⟩ := ih (latestStep acc x) b h
      have hx_le : x.created_at ≤ b.created_at := by
        cases acc with
        | none => exact hstep x rfl
        | some a =>
            by_cases hlt : a.created_at < x.created_at
            · refine hstep x ?_
              simp only [latestStep]
              rw [if_pos hlt]
            · have hax : x.created_at ≤ a.created_at := le_of_not_lt hlt
              have hab : a.created_at ≤ b.created_at := by
                refine hstep a ?_
                simp only [latestStep]
                rw [if_neg hlt]
              exact le_trans hax hab
      refine ⟨?_, ?_⟩
      · intro y hy
        rcases List.mem_cons.mp hy with h1 | h2
        · rw [h1]
          exact hx_le
        · exact hxs y h2
      · intro c hc
        cases acc with
        | none => cases hc
        | some a =>
            have hac : a = c := by injection hc
            subst hac
            by_cases hlt : a.created_at < x.created_at
            · exact le_trans (le_of_lt hlt) hx_le
            · refine hstep a ?_
              simp only [latestStep]
              rw [if_neg hlt]

theorem latestRow_created_at_le (db : TokenDB) (r : TokenRow)
    (h : latestRow db = some r) : ∀ x ∈ db, x.created_at ≤ r.created_at := by
  rw [latestRow_eq_foldl] at h
  exact (latestStep_foldl_max db none r h).1

theorem get_stored_token_eq_none_iff (db : TokenDB) (now : Int) :
    get_stored_token db now = none ↔
      (db = [] ∨ ∃ r, latestRow db = some r ∧ r.expires_at < now + 60) := by
  cases hl : latestRow db with
  | none =>
      have hval : get_stored_token db now = none := by
        simp only [get_stored_token, hl]
      rw [hval]
      constructor
      · intro _
        exact Or.inl ((latestRow_eq_none_iff db).mp hl)
      · intro _
        rfl
  | some r =>
      by_cases he : r.expires_at < now + 60
      · have hval : get_stored_token db now = none := by
          simp only [get_stored_token, hl]
          rw [if_pos he]
        rw [hval]
        constructor
        · intro _
          exact Or.inr ⟨r, rfl, he⟩
        · intro _
          rfl
      · have hval : get_stored_token db now
            = some ⟨r.access_token, r.refresh_token, r.expires_at⟩ := by
          simp only [get_stored_token, hl]
          rw [if_neg he]
        rw [hval]
        constructor
        · intro h
          cases h
        · rintro (hdb | ⟨r', hr', he'⟩)
          · rw [hdb] at hl
            rw [show latestRow ([] : TokenDB) = none from rfl] at hl
            cases hl
          · have hrr : r = r' := by injection hr'
            subst hrr
            exact absurd he' he

theorem latestRow_append_newest (db : TokenDB) (x : TokenRow)
    (h : ∀ r ∈ db, r.created_at < x.created_at) :
    latestRow (db ++ [x]) = some x := by
  rw [latestRow_eq_foldl, List.foldl_append]
  rw [← latestRow_eq_foldl]
  cases hl : latestRow db with
  | none => rfl
  | some b =>
      have hb : b ∈ db := latestRow_mem db b hl
      simp only [List.foldl_cons, List.foldl_nil, latestStep]
      rw [if_pos (h b hb)]

theorem find?_replace (r : ActivityRow) :
    ∀ tbl : ActivitiesTable,
      (tbl.map (fun x => if x.id == r.id then r else x)).find?
          (fun x => x.id == r.id) =
        if tbl.any (fun x => x.id == r.id) then some r else none := by
  intro tbl
  induction tbl with
  | nil => rfl
  | cons x xs ih =>
      by_cases hx : (x.id == r.id) = true
      · have hmap : (x :: xs).map (fun y => if y.id == r.id then r else y)
            = r :: xs.map (fun y => if y.id == r.id then r else y) := by
          rw [List.map_cons]
          congr 1
          exact if_pos hx
        rw [hmap]
        simp only [List.find?_cons, beq_self_eq_true]
        have hany : (x :: xs).any (fun y => y.id == r.id) = true := by
          simp [List.any_cons, hx]
        rw [if_pos hany]
      · have hx' : (x.id == r.id) = false := by simpa using hx
        have hmap : (x :: xs).map (fun y => if y.id == r.id then r else y)
            = x :: xs.map (fun y => if y.id == r.id then r else y) := by
          rw [List.map_cons]
          congr 1
          exact if_neg (by simp [hx'])
        rw [hmap]
        simp only [List.find?_cons, hx']
        rw [ih]
        have hany : (x :: xs).any (fun y => y.id == r.id)
            = xs.any (fun y => y.id == r.id) := by
          simp [List.any_cons, hx']
        rw [hany]

theorem find?_append_self (r : ActivityRow) :
    ∀ tbl : ActivitiesTable,
      tbl.any (fun x => x.id == r.id) = false →
      (tbl ++ [r]).find? (fun x => x.id == r.id) = some r := by
  intro tbl
  induction tbl with
  | nil =>
      intro _
      show List.find? (fun y => y.id == r.id) [r] = some r
      simp [List.find?_cons]
  | cons x xs ih =>
      intro h
      rw [List.any_cons, Bool.or_eq_false_iff] at h
      rw [List.cons_append]
      simp only [List.find?_cons, h.1]
      exact ih h.2

theorem lookup_upsert_self (tbl : ActivitiesTable) (r : ActivityRow) :
    lookupActivity (upsertRow tbl r) r.id = some r := by
  unfold lookupActivity upsertRow
  by_cases h : tbl.any (fun x => x.id == r.id) = true
  · rw [if_pos h, find?_replace, if_pos h]
  · have h' : tbl.any (fun x => x.id == r.id) = false := by
      simpa using h
    rw [if_neg (by simp [h']), find?_append_self r tbl h']

theorem detailUpdate_id (r : ActivityRow) (a : ActivityPayload) :
    (detailUpdate r a).id = r.id := rfl

theorem lookup_detail_write (a : ActivityPayload) (i : Int) :
    ∀ (tbl : ActivitiesTable) (r : ActivityRow),
      lookupActivity tbl i = some r →
      lookupActivity (fetch_activity_details_write tbl i a) i =
        some (detailUpdate r a) := by
  intro tbl
  induction tbl with
  | nil => intro r h; simp [lookupActivity, List.find?] at h
  | cons x xs ih =>
      intro r h
      by_cases hx : (x.id == i) = true
      · unfold lookupActivity at h
        simp only [List.find?_cons, hx] at h
        have hr : x = r := by injection h
        subst hr
        unfold fetch_activity_details_write lookupActivity
        have hmap : (x :: xs).map (fun y => if y.id == i then detailUpdate y a else y)
            = detailUpdate x a
                :: xs.map (fun y => if y.id == i then detailUpdate y a else y) := by
          rw [List.map_cons]
          congr 1
          exact if_pos hx
        rw [hmap]
        simp only [List.find?_cons, detailUpdate_id, hx]
      · have hx' : (x.id == i) = false := by simpa using hx
        unfold lookupActivity at h
        simp only [List.find?_cons, hx'] at h
        unfold fetch_activity_details_write lookupActivity
        have hmap : (x :: xs).map (fun y => if y.id == i then detailUpdate y a else y)
            = x :: xs.map (fun y => if y.id == i then detailUpdate y a else y) := by
          rw [List.map_cons]
          congr 1
          exact if_neg (by simp [hx'])
        rw [hmap]
        simp only [List.find?_cons, hx']
        exact ih r h

theorem detail_write_absent (a : ActivityPayload) (i : Int) :
    ∀ tbl : ActivitiesTable,
      lookupActivity tbl i = none →
      fetch_activity_details_write tbl i a = tbl := by
  intro tbl
  induction tbl with
  | nil => intro _; rfl
  | cons x xs ih =>
      intro h
      unfold lookupActivity at h
      by_cases hx : (x.id == i) = true
      · simp only [List.find?_cons, hx] at h
        cases h
      · have hx' : (x.id == i) = false := by simpa using hx
        simp only [List.find?_cons, hx'] at h
        unfold fetch_activity_details_write
        rw [List.map_cons]
        congr 1
        · exact if_neg (by simp [hx'])
        · exact ih h

theorem saveActivities_eq_filter (fails : ActivityPayload → Bool) :
    ∀ (records : List ActivityPayload) (tbl : ActivitiesTable),
      saveActivities fails tbl records =
        (records.filter (fun a => !(fails a))).foldl
          (fun t a => upsertRow t (rowOfPayload a)) tbl := by
  intro records
  induction records with
  | nil => intro tbl; rfl
  | cons a as ih =>
      intro tbl
      unfold saveActivities at ih ⊢
      by_cases hf : fails a = true
      · simp only [List.foldl_cons, writeActivity, if_pos hf,
          List.filter_cons, hf]
        simpa using ih tbl
      · have hf' : fails a = false := by simpa using hf
        simp only [List.foldl_cons, writeActivity, hf', Bool.false_eq_true,
          if_neg, not_false_eq_true, List.filter_cons]
        simpa [hf'] using ih (upsertRow tbl (rowOfPayload a))

theorem fetchAux_error_source
    (provider : Nat → Except ApiError (List ActivityPayload))
    (pl : Option Nat) :
    ∀ (fuel page : Nat) (acc : List ActivityPayload) (reqs : List Nat)
      (e : ApiError) (reqs' : List Nat),
      fetchActivitiesAux provider pl fuel page acc reqs =
        some (.error e, reqs') →
      ∃ p, provider p = .error e := by
  intro fuel
  induction fuel with
  | zero => intro page acc reqs e reqs' h; cases h
  | succ n ih =>
      intro page acc reqs e reqs' h
      unfold fetchActivitiesAux at h
      split at h
      next e0 heq =>
        simp only [Option.some.injEq, Prod.mk.injEq, Except.error.injEq] at h
        exact ⟨page, by rw [heq, h.1]⟩
      next batch heq =>
        split at h
        · simp only [Option.some.injEq, Prod.mk.injEq] at h
          exact absurd h.1 (by simp)
        · split at h
          · simp only [Option.some.injEq, Prod.mk.injEq] at h
            exact absurd h.1 (by simp)
          · exact ih (page + 1) (acc ++ batch) (reqs ++ [page]) e reqs' h

/- ===== concrete values used by witnesses and counterexamples ===== -/

/-- A stored credential 1000s from expiry, created at time 5. -/
def exampleValidRow : TokenRow := ⟨"access0", "refresh0", 1000, 5⟩

/-- A stored credential already expired at time 0, holding the rotated
refresh token from its own refresh. -/
def exampleExpiredRow : TokenRow := ⟨"accessOld", "stored_rt", 0, 0⟩

/-- A broker that answers every refresh with a well-formed 200 response. -/
def exampleBrokerOk : String → BrokerResponse :=
  fun _ => ⟨200, some "accessNew", some "refreshNew", some 9999⟩

/-- A broker whose 200 response lacks the access_token field. -/
def exampleBrokerNoAccess : String → BrokerResponse :=
  fun _ => ⟨200, none, some "refreshNew", some 9999⟩

/- ===== the claims ===== -/

/-- Claim C1, counterexample: a stored credential exists (the newest row,
with refresh token "stored_rt") and ensure_token must refresh (the row is
within 60s of expiry), yet the refresh token passed to the broker is the
statically configured "env_rt", not the stored credential's refresh token.
get_stored_token collapses "expired stored credential" into None, so
ensure_token can never see the stored refresh token. -/
theorem C1_counterexample :
    latestRow [exampleExpiredRow] = some exampleExpiredRow ∧
    exampleExpiredRow.refresh_token = "stored_rt" ∧
    (ensure_token (some "env_rt") exampleBrokerOk [exampleExpiredRow] 0).brokerCalls
        = ["env_rt"] ∧
    ("env_rt" : String) ≠ "stored_rt" :=
  ⟨rfl, rfl, by decide, by decide⟩

/-- Claim C1 as amended: whenever ensure_token calls the broker, the
refresh token it passes is the statically configured one (and it makes at
most one call); the stored credential's refresh token is never passed,
whether or not a stored credential exists. -/
theorem C1_static_refresh_only (envRefresh : Option String)
    (broker : String → BrokerResponse) (db : TokenDB) (now : Int) :
    (ensure_token envRefresh broker db now).brokerCalls = [] ∨
    ∃ rt, envRefresh = some rt ∧
      (ensure_token envRefresh broker db now).brokerCalls = [rt] := by
  cases hs : get_stored_token db now with
  | some t => exact Or.inl (by simp only [ensure_token, hs])
  | none =>
      cases envRefresh with
      | none => exact Or.inl (by simp only [ensure_token, hs])
      | some rt =>
          cases hr : refresh_strava_access_token (broker rt) with
          | error e =>
              exact Or.inr ⟨rt, rfl, by simp only [ensure_token, hs, hr]⟩
          | ok tok =>
              exact Or.inr ⟨rt, rfl, by simp only [ensure_token, hs, hr]⟩

/-- Claim C3 (confirmed): when the newest stored credential has
expires_at ≥ now + 60, ensure_token returns its access token, makes no
broker call, and leaves the token store unchanged. -/
theorem C3_valid_token_no_refresh (envRefresh : Option String)
    (broker : String → BrokerResponse) (db : TokenDB) (now : Int)
    (r : TokenRow) (hlatest : latestRow db = some r)
    (hvalid : now + 60 ≤ r.expires_at) :
    ensure_token envRefresh broker db now =
      ⟨.ok ⟨r.access_token, r.refresh_token, r.expires_at⟩, db, []⟩ := by
  have hstored : get_stored_token db now
      = some ⟨r.access_token, r.refresh_token, r.expires_at⟩ := by
    simp only [get_stored_token, hlatest]
    rw [if_neg (not_lt.mpr hvalid)]
  simp only [ensure_token, hstored]

/-- Witness for C3 at a concrete store: one credential 1000s from expiry
at time 0. -/
theorem C3_witness :
    ensure_token none exampleBrokerOk [exampleValidRow] 0 =
      ⟨.ok ⟨"access0", "refresh0", 1000⟩, [exampleValidRow], []⟩ :=
  C3_valid_token_no_refresh none exampleBrokerOk [exampleValidRow] 0
    exampleValidRow rfl (by decide)

/-- Claim C6 (confirmed): a 200 broker response that lacks access_token
makes refresh_strava_access_token fail with the malformed-response error,
and the ensure_token call that triggered the refresh propagates it with
the token store left unchanged (no row appended). -/
theorem C6_malformed_refresh (envRefresh : Option String)
    (broker : String → BrokerResponse) (db : TokenDB) (now : Int) (rt : String)
    (henv : envRefresh = some rt)
    (hstored : get_stored_token db now = none)
    (hstatus : (broker rt).status = 200)
    (hmissing : (broker rt).access_token = none) :
    refresh_strava_access_token (broker rt) = .error .malformedResponse ∧
    ensure_token envRefresh broker db now =
      ⟨.error (.refreshError .malformedResponse), db, [rt]⟩ := by
  subst henv
  have href : refresh_strava_access_token (broker rt)
      = .error .malformedResponse := by
    unfold refresh_strava_access_token
    rw [if_neg (by simp [hstatus]), hmissing]
  refine ⟨href, ?_⟩
  simp only [ensure_token, hstored, href]

/-- Witness for C6: empty store, broker answering 200 without
access_token. -/
theorem C6_witness :
    refresh_strava_access_token (exampleBrokerNoAccess "rt0")
        = .error .malformedResponse ∧
    ensure_token (some "rt0") exampleBrokerNoAccess [] 0 =
      ⟨.error (.refreshError .malformedResponse), [], ["rt0"]⟩ :=
  C6_malformed_refresh (some "rt0") exampleBrokerNoAccess [] 0 "rt0"
    rfl rfl rfl rfl

/-- Claim C7, counterexample: the store holds a row, yet get_stored_token
(the code's get_current) returns absent, because the newest row is within
60s of expiry — so "absent exactly when no rows exist" fails, and so does
the unconditional put-then-get roundtrip. -/
theorem C7_counterexample :
    ([exampleExpiredRow] : TokenDB) ≠ [] ∧
    latestRow [exampleExpiredRow] = some exampleExpiredRow ∧
    get_stored_token [exampleExpiredRow] 0 = none :=
  ⟨by simp, rfl, by decide⟩

/-- Claim C7 as amended: put appends a row and never updates in place;
the row selected by get_current is a row of the store with the greatest
created_at, and it is absent exactly when no rows exist; get_current (the
code's get_stored_token) returns that row's credential whenever it has
expires_at ≥ now + 60, for an arbitrary store, and returns absent exactly
when no rows exist or the newest row is within 60s of expiry; hence
put(c) followed by get_current yields c whenever c has the strictly
newest created_at and is at least 60s from expiry. -/
theorem C7_store_semantics (db : TokenDB) (t : TokenInfo) (now cnow : Int)
    (hnew : ∀ r ∈ db, r.created_at < cnow)
    (hfresh : now + 60 ≤ t.expires_at) :
    store_token db t cnow
        = db ++ [⟨t.access_token, t.refresh_token, t.expires_at, cnow⟩] ∧
    (∀ r, latestRow db = some r →
      r ∈ db ∧ ∀ x ∈ db, x.created_at ≤ r.created_at) ∧
    (latestRow db = none ↔ db = []) ∧
    (∀ r, latestRow db = some r → now + 60 ≤ r.expires_at →
      get_stored_token db now
        = some ⟨r.access_token, r.refresh_token, r.expires_at⟩) ∧
    (get_stored_token db now = none ↔
      (db = [] ∨ ∃ r, latestRow db = some r ∧ r.expires_at < now + 60)) ∧
    get_stored_token (store_token db t cnow) now = some t := by
  refine ⟨rfl, ?_, latestRow_eq_none_iff db, ?_,
    get_stored_token_eq_none_iff db now, ?_⟩
  · intro r hl
    exact ⟨latestRow_mem db r hl, latestRow_created_at_le db r hl⟩
  · intro r hl hfr
    simp only [get_stored_token, hl]
    rw [if_neg (not_lt.mpr hfr)]
  · obtain ⟨ta, tr, te⟩ := t
    have hl2 := latestRow_append_newest db ⟨ta, tr, te, cnow⟩ hnew
    show get_stored_token (db ++ [⟨ta, tr, te, cnow⟩]) now = some ⟨ta, tr, te⟩
    simp only [get_stored_token, hl2]
    rw [if_neg (not_lt.mpr hfresh)]

/-- Witness for C7 as amended: append a fresh credential over one older
row and read it back. -/
theorem C7_witness :
    store_token [exampleValidRow] ⟨"access1", "refresh1", 500⟩ 10
        = [exampleValidRow] ++ [⟨"access1", "refresh1", 500, 10⟩] ∧
    get_stored_token
        (store_token [exampleValidRow] ⟨"access1", "refresh1", 500⟩ 10) 0
        = some ⟨"access1", "refresh1", 500⟩ := by
  have h := C7_store_semantics [exampleValidRow] ⟨"access1", "refresh1", 500⟩
    0 10 (by decide) (by decide)
  exact ⟨h.1, h.2.2.2.2.2⟩

/-- Claim C8 (confirmed): ensure_token fails with the no-refresh-token
error exactly when the store yields no usable credential and the static
refresh token is unset; in that case it makes no broker call and leaves
the store unchanged. -/
theorem C8_no_refresh_token (envRefresh : Option String)
    (broker : String → BrokerResponse) (db : TokenDB) (now : Int) :
    ((ensure_token envRefresh broker db now).result
        = .error .noRefreshToken ↔
      get_stored_token db now = none ∧ envRefresh = none) ∧
    (get_stored_token db now = none → envRefresh = none →
      ensure_token envRefresh broker db now
        = ⟨.error .noRefreshToken, db, []⟩) := by
  cases hs : get_stored_token db now with
  | some t =>
      have hval : ensure_token envRefresh broker db now = ⟨.ok t, db, []⟩ := by
        simp only [ensure_token, hs]
      refine ⟨⟨fun h => ?_, fun hp => ?_⟩, fun h1 _ => ?_⟩
      · rw [hval] at h
        exact absurd h (by simp)
      · exact absurd hp.1 (by simp)
      · cases h1
  | none =>
      cases envRefresh with
      | none =>
          have hval : ensure_token none broker db now
              = ⟨.error .noRefreshToken, db, []⟩ := by
            simp only [ensure_token, hs]
          exact ⟨⟨fun _ => ⟨rfl, rfl⟩, fun _ => by rw [hval]⟩, fun _ _ => hval⟩
      | some rt =>
          cases hr : refresh_strava_access_token (broker rt) with
          | error e =>
              have hval : ensure_token (some rt) broker db now
                  = ⟨.error (.refreshError e), db, [rt]⟩ := by
                simp only [ensure_token, hs, hr]
              refine ⟨⟨fun h => ?_, fun hp => ?_⟩, fun _ h2 => ?_⟩
              · rw [hval] at h
                exact absurd h (by simp)
              · exact absurd hp.2 (by simp)
              · exact absurd h2 (by simp)
          | ok tok =>
              have hval : ensure_token (some rt) broker db now
                  = ⟨.ok tok, store_token db tok now, [rt]⟩ := by
                simp only [ensure_token, hs, hr]
              refine ⟨⟨fun h => ?_, fun hp => ?_⟩, fun _ h2 => ?_⟩
              · rw [hval] at h
                exact absurd h (by simp)
              · exact absurd hp.2 (by simp)
              · exact absurd h2 (by simp)

/-- Witness for C8: empty store, no configured refresh token. -/
theorem C8_witness :
    ensure_token none exampleBrokerOk [] 0
      = ⟨.error .noRefreshToken, [], []⟩ :=
  (C8_no_refresh_token none exampleBrokerOk [] 0).2 rfl rfl

/- ===== pagination step lemmas ===== -/

theorem fetchAux_step (provider : Nat → Except ApiError (List ActivityPayload))
    (pl : Option Nat) (fuel page : Nat) (acc : List ActivityPayload)
    (reqs : List Nat) :
    fetchActivitiesAux provider pl (fuel + 1) page acc reqs =
      match provider page with
      | .error e => some (.error e, reqs ++ [page])
      | .ok batch =>
          if batch.isEmpty then some (.ok acc, reqs ++ [page])
          else if pageLimitHit pl (page + 1) then
            some (.ok (acc ++ batch), reqs ++ [page])
          else fetchActivitiesAux provider pl fuel (page + 1) (acc ++ batch)
            (reqs ++ [page]) := rfl

theorem fetchAux_step_ok (provider : Nat → Except ApiError (List ActivityPayload))
    (pl : Option Nat) (fuel page : Nat) (acc : List ActivityPayload)
    (reqs : List Nat) (batch : List ActivityPayload)
    (hp : provider page = .ok batch) (hne : batch.isEmpty = false)
    (hlim : pageLimitHit pl (page + 1) = false) :
    fetchActivitiesAux provider pl (fuel + 1) page acc reqs =
      fetchActivitiesAux provider pl fuel (page + 1) (acc ++ batch)
        (reqs ++ [page]) := by
  rw [fetchAux_step, hp]
  simp [hne, hlim]

theorem fetchAux_step_limit (provider : Nat → Except ApiError (List ActivityPayload))
    (pl : Option Nat) (fuel page : Nat) (acc : List ActivityPayload)
    (reqs : List Nat) (batch : List ActivityPayload)
    (hp : provider page = .ok batch) (hne : batch.isEmpty = false)
    (hlim : pageLimitHit pl (page + 1) = true) :
    fetchActivitiesAux provider pl (fuel + 1) page acc reqs =
      some (.ok (acc ++ batch), reqs ++ [page]) := by
  rw [fetchAux_step, hp]
  simp [hne, hlim]

theorem fetchAux_step_empty (provider : Nat → Except ApiError (List ActivityPayload))
    (pl : Option Nat) (fuel page : Nat) (acc : List ActivityPayload)
    (reqs : List Nat) (hp : provider page = .ok []) :
    fetchActivitiesAux provider pl (fuel + 1) page acc reqs =
      some (.ok acc, reqs ++ [page]) := by
  rw [fetchAux_step, hp]
  rfl

/- ===== concrete sync values for witnesses and counterexamples ===== -/

/-- A summary activity payload, id 7, kudos_count 5. -/
def examplePayload : ActivityPayload :=
  ⟨7, some "Morning Run", some "Run", some "Run", some "2024-01-01T08:00:00Z",
   some 5000, some 1500, some 1600, some 42, some 3, some 5, some true,
   some 150, some 180, some 5, some 1, some 0, "raw_summary"⟩

/-- A detail payload for the same activity id 7, with different values in
every field, in particular kudos_count 9 and a different start_date. -/
def examplePayloadDetail : ActivityPayload :=
  ⟨7, some "Morning Run detailed", some "Run", some "Run",
   some "2024-01-02T08:00:00Z",
   some 5100, some 1510, some 1610, some 43, some 4, some 6, some true,
   some 151, some 181, some 9, some 2, some 1, "raw_detail"⟩

/-- A 100-record page. -/
def exampleBatch : List ActivityPayload := List.replicate 100 examplePayload

/-- A provider with three full pages and an empty fourth page. -/
def providerStops : Nat → Except ApiError (List ActivityPayload) :=
  fun p => if p ≤ 3 then .ok exampleBatch else .ok []

/-- A provider that returns a full page on every page. -/
def providerAlways : Nat → Except ApiError (List ActivityPayload) :=
  fun _ => .ok exampleBatch

/-- A provider whose every request fails. -/
def providerDown : Nat → Except ApiError (List ActivityPayload) :=
  fun _ => .error (.requestFailed "HTTP 500")

/-- Record writes that never raise. -/
def noWriteFails : ActivityPayload → Bool := fun _ => false

/-- Record writes that always raise. -/
def allWriteFails : ActivityPayload → Bool := fun _ => true

/-- A one-row activities table. -/
def exampleTable : ActivitiesTable := [rowOfPayload examplePayload]

/- ===== sync claims ===== -/

/-- Claim C2, counterexample: after an upsert of the summary record for
id 7 followed by a detail fetch of the same id, the stored row is not the
full image of the second record: kudos_count stays 5 (the detail record
carries 9) and start_date stays at the first record's value, because the
detail UPDATE does not set start_date, kudos_count, achievement_count or
pr_count. -/
theorem C2_counterexample :
    examplePayload.id = 7 ∧ examplePayloadDetail.id = 7 ∧
    lookupActivity
        (fetch_activity_details_write
          (upsertRow [] (rowOfPayload examplePayload)) 7 examplePayloadDetail)
        7
      ≠ some (rowOfPayload examplePayloadDetail) ∧
    lookupActivity
        (fetch_activity_details_write
          (upsertRow [] (rowOfPayload examplePayload)) 7 examplePayloadDetail)
        7
      = some (detailUpdate (rowOfPayload examplePayload) examplePayloadDetail) ∧
    (detailUpdate (rowOfPayload examplePayload) examplePayloadDetail).kudos_count
      = 5 ∧
    (rowOfPayload examplePayloadDetail).kudos_count = 9 ∧
    (detailUpdate (rowOfPayload examplePayload) examplePayloadDetail).start_date
      = "2024-01-01T08:00:00Z" :=
  ⟨rfl, rfl, by decide, by decide, rfl, rfl, rfl⟩

/-- Claim C2 as amended: two upserts through the paginated list sync are
last-write-wins on every column; a single-activity detail fetch, however,
overwrites only the columns in its SET clause — start_date, kudos_count,
achievement_count and pr_count keep their prior values — and writes
nothing at all when the id is not present. -/
theorem C2_upsert_overwrite (tbl : ActivitiesTable)
    (p1 p2 : ActivityPayload) (_hid : p1.id = p2.id) :
    lookupActivity
        (upsertRow (upsertRow tbl (rowOfPayload p1)) (rowOfPayload p2))
        p2.id
      = some (rowOfPayload p2) ∧
    (∀ r, lookupActivity tbl p2.id = some r →
      lookupActivity (fetch_activity_details_write tbl p2.id p2) p2.id
          = some (detailUpdate r p2) ∧
      (detailUpdate r p2).start_date = r.start_date ∧
      (detailUpdate r p2).kudos_count = r.kudos_count ∧
      (detailUpdate r p2).achievement_count = r.achievement_count ∧
      (detailUpdate r p2).pr_count = r.pr_count ∧
      (detailUpdate r p2).name = (rowOfPayload p2).name ∧
      (detailUpdate r p2).json_data = (rowOfPayload p2).json_data) ∧
    (lookupActivity tbl p2.id = none →
      fetch_activity_details_write tbl p2.id p2 = tbl) := by
  refine ⟨?_, ?_, detail_write_absent p2 p2.id tbl⟩
  · exact lookup_upsert_self (upsertRow tbl (rowOfPayload p1)) (rowOfPayload p2)
  · intro r hr
    exact ⟨lookup_detail_write p2 p2.id tbl r hr, rfl, rfl, rfl, rfl, rfl, rfl⟩

/-- Witness for C2 as amended: the list-path double upsert at id 7. -/
theorem C2_witness :
    lookupActivity
        (upsertRow (upsertRow [] (rowOfPayload examplePayload))
          (rowOfPayload examplePayloadDetail))
        examplePayloadDetail.id
      = some (rowOfPayload examplePayloadDetail) :=
  (C2_upsert_overwrite [] examplePayload examplePayloadDetail rfl).1

/-- Claim C4 (confirmed): with no page limit, for any provider whose pages
1-3 hold 100 records and whose page 4 is empty, fetch_strava_activities
requests exactly pages 1, 2, 3, 4 in order, returns 300, and writes the
300 accumulated records. -/
theorem C4_pagination_terminates
    (provider : Nat → Except ApiError (List ActivityPayload))
    (fails : ActivityPayload → Bool) (tbl : ActivitiesTable) (extra : Nat)
    (b1 b2 b3 : List ActivityPayload)
    (h1 : provider 1 = .ok b1) (hl1 : b1.length = 100)
    (h2 : provider 2 = .ok b2) (hl2 : b2.length = 100)
    (h3 : provider 3 = .ok b3) (hl3 : b3.length = 100)
    (h4 : provider 4 = .ok []) :
    fetch_strava_activities provider fails none tbl (extra + 4) =
      some ⟨.ok 300, saveActivities fails tbl ((b1 ++ b2) ++ b3),
        [1, 2, 3, 4], 1⟩ := by
  have e1 : b1.isEmpty = false := by
    cases b1 with
    | nil => simp at hl1
    | cons _ _ => rfl
  have e2 : b2.isEmpty = false := by
    cases b2 with
    | nil => simp at hl2
    | cons _ _ => rfl
  have e3 : b3.isEmpty = false := by
    cases b3 with
    | nil => simp at hl3
    | cons _ _ => rfl
  have haux : fetchActivitiesAux provider none (extra + 4) 1 [] []
      = some (.ok ((b1 ++ b2) ++ b3), [1, 2, 3, 4]) :=
    calc fetchActivitiesAux provider none (extra + 4) 1 [] []
        = fetchActivitiesAux provider none (extra + 3) 2 b1 [1] :=
          fetchAux_step_ok provider none (extra + 3) 1 [] [] b1 h1 e1 rfl
      _ = fetchActivitiesAux provider none (extra + 2) 3 (b1 ++ b2) [1, 2] :=
          fetchAux_step_ok provider none (extra + 2) 2 b1 [1] b2 h2 e2 rfl
      _ = fetchActivitiesAux provider none (extra + 1) 4 ((b1 ++ b2) ++ b3)
            [1, 2, 3] :=
          fetchAux_step_ok provider none (extra + 1) 3 (b1 ++ b2) [1, 2] b3
            h3 e3 rfl
      _ = some (.ok ((b1 ++ b2) ++ b3), [1, 2, 3, 4]) :=
          fetchAux_step_empty provider none extra 4 ((b1 ++ b2) ++ b3)
            [1, 2, 3] h4
  unfold fetch_strava_activities
  rw [haux]
  show some (⟨.ok ((b1 ++ b2) ++ b3).length,
      saveActivities fails tbl ((b1 ++ b2) ++ b3), [1, 2, 3, 4], 1⟩
      : SyncOutcome) = _
  rw [show ((b1 ++ b2) ++ b3).length = 300 from by
    simp [List.length_append, hl1, hl2, hl3]]

/-- Witness for C4: the concrete provider with pages [100, 100, 100, 0]. -/
theorem C4_witness :
    fetch_strava_activities providerStops noWriteFails none [] 4 =
      some ⟨.ok 300,
        saveActivities noWriteFails []
          ((exampleBatch ++ exampleBatch) ++ exampleBatch),
        [1, 2, 3, 4], 1⟩ :=
  C4_pagination_terminates providerStops noWriteFails [] 0
    exampleBatch exampleBatch exampleBatch
    rfl (by simp [exampleBatch]) rfl (by simp [exampleBatch])
    rfl (by simp [exampleBatch]) rfl

/-- Claim C5 (confirmed): with page_limit 2, for any provider whose pages
1 and 2 hold 100 records each, fetch_strava_activities requests exactly
pages 1 and 2, returns 200, and never touches later pages — they are
universally quantified and unconstrained. -/
theorem C5_page_limit
    (provider : Nat → Except ApiError (List ActivityPayload))
    (fails : ActivityPayload → Bool) (tbl : ActivitiesTable) (extra : Nat)
    (b1 b2 : List ActivityPayload)
    (h1 : provider 1 = .ok b1) (hl1 : b1.length = 100)
    (h2 : provider 2 = .ok b2) (hl2 : b2.length = 100) :
    fetch_strava_activities provider fails (some 2) tbl (extra + 2) =
      some ⟨.ok 200, saveActivities fails tbl (b1 ++ b2), [1, 2], 1⟩ := by
  have e1 : b1.isEmpty = false := by
    cases b1 with
    | nil => simp at hl1
    | cons _ _ => rfl
  have e2 : b2.isEmpty = false := by
    cases b2 with
    | nil => simp at hl2
    | cons _ _ => rfl
  have haux : fetchActivitiesAux provider (some 2) (extra + 2) 1 [] []
      = some (.ok (b1 ++ b2), [1, 2]) :=
    calc fetchActivitiesAux provider (some 2) (extra + 2) 1 [] []
        = fetchActivitiesAux provider (some 2) (extra + 1) 2 b1 [1] :=
          fetchAux_step_ok provider (some 2) (extra + 1) 1 [] [] b1 h1 e1
            (by decide)
      _ = some (.ok (b1 ++ b2), [1, 2]) :=
          fetchAux_step_limit provider (some 2) extra 2 b1 [1] b2 h2 e2
            (by decide)
  unfold fetch_strava_activities
  rw [haux]
  show some (⟨.ok (b1 ++ b2).length, saveActivities fails tbl (b1 ++ b2),
      [1, 2], 1⟩ : SyncOutcome) = _
  rw [show (b1 ++ b2).length = 200 from by simp [List.length_append, hl1, hl2]]

/-- Witness for C5: a provider returning a full page on every page. -/
theorem C5_witness :
    fetch_strava_activities providerAlways noWriteFails (some 2) [] 2 =
      some ⟨.ok 200,
        saveActivities noWriteFails [] (exampleBatch ++ exampleBatch),
        [1, 2], 1⟩ :=
  C5_page_limit providerAlways noWriteFails [] 0 exampleBatch exampleBatch
    rfl (by simp [exampleBatch]) rfl (by simp [exampleBatch])

/-- Claim C9, counterexample: when the single record's write raises, the
batch still reports 1 (len(all_activities)) though 0 records were written
and the table is unchanged — the return value is the fetched count, not
the written count. -/
theorem C9_counterexample :
    (upsert_activities allWriteFails [] [examplePayload]).returnedCount = 1 ∧
    writtenCount allWriteFails [examplePayload] = 0 ∧
    (upsert_activities allWriteFails [] [examplePayload]).table = [] ∧
    (1 : Nat) ≠ 0 :=
  ⟨rfl, rfl, rfl, by decide⟩

/-- Claim C9 as amended: the write phase returns the count of fetched
records (which equals the count actually written only when no record's
write fails); a failing record is logged and skipped without aborting the
batch — the table ends as the fold of the non-failing records — and the
whole batch shares a single commit. -/
theorem C9_batch_semantics (fails : ActivityPayload → Bool)
    (tbl : ActivitiesTable) (records : List ActivityPayload) :
    (upsert_activities fails tbl records).returnedCount = records.length ∧
    (upsert_activities fails tbl records).commits = 1 ∧
    (upsert_activities fails tbl records).table =
      (records.filter (fun a => !(fails a))).foldl
        (fun t a => upsertRow t (rowOfPayload a)) tbl ∧
    ((∀ a ∈ records, fails a = false) →
      (upsert_activities fails tbl records).returnedCount
        = writtenCount fails records) := by
  refine ⟨rfl, rfl, saveActivities_eq_filter fails records tbl, ?_⟩
  intro hall
  show records.length = (records.filter (fun a => !(fails a))).length
  have hfilter : records.filter (fun a => !(fails a)) = records := by
    apply List.filter_eq_self.mpr
    intro a ha
    rw [hall a ha]
    rfl
  rw [hfilter]

/-- Witness for C9 as amended: a one-record batch with no write failure
reports exactly the written count. -/
theorem C9_witness :
    (upsert_activities noWriteFails [] [examplePayload]).returnedCount
      = writtenCount noWriteFails [examplePayload] :=
  (C9_batch_semantics noWriteFails [] [examplePayload]).2.2.2
    (fun _ _ => rfl)

/-- Claim C10 (confirmed): when fetch_strava_activities ends in a request
error, the error came from some page request, no activity row was written
(the table is exactly the input table), and no commit was performed — all
pages are accumulated in memory and the first write happens only after the
whole pagination loop has succeeded. -/
theorem C10_failed_fetch_no_writes
    (provider : Nat → Except ApiError (List ActivityPayload))
    (fails : ActivityPayload → Bool) (pl : Option Nat)
    (tbl : ActivitiesTable) (fuel : Nat) (o : SyncOutcome) (e : ApiError)
    (hsome : fetch_strava_activities provider fails pl tbl fuel = some o)
    (herr : o.result = .error e) :
    o.table = tbl ∧ o.commits = 0 ∧ ∃ p, provider p = .error e := by
  unfold fetch_strava_activities at hsome
  cases haux : fetchActivitiesAux provider pl fuel 1 [] [] with
  | none =>
      rw [haux] at hsome
      cases hsome
  | some pr =>
      rw [haux] at hsome
      obtain ⟨res, reqs⟩ := pr
      cases res with
      | error e0 =>
          have ho : (⟨.error e0, tbl, reqs, 0⟩ : SyncOutcome) = o :=
            Option.some.inj hsome
          subst ho
          have he : e0 = e := by injection herr
          subst he
          exact ⟨rfl, rfl,
            fetchAux_error_source provider pl fuel 1 [] [] e0 reqs haux⟩
      | ok acc =>
          have ho : (⟨.ok acc.length, saveActivities fails tbl acc, reqs, 1⟩
              : SyncOutcome) = o :=
            Option.some.inj hsome
          subst ho
          exact absurd herr (by simp)

/-- Witness for C10: a provider that fails on page 1 leaves the one-row
table untouched. -/
theorem C10_witness :
    (⟨.error (.requestFailed "HTTP 500"), exampleTable, [1], 0⟩
        : SyncOutcome).table = exampleTable ∧
    (⟨.error (.requestFailed "HTTP 500"), exampleTable, [1], 0⟩
        : SyncOutcome).commits = 0 ∧
    ∃ p, providerDown p = .error (.requestFailed "HTTP 500") :=
  C10_failed_fetch_no_writes providerDown noWriteFails none exampleTable 1
    ⟨.error (.requestFailed "HTTP 500"), exampleTable, [1], 0⟩
    (.requestFailed "HTTP 500") rfl rfl

end StravaMCP
